import Mathlib

/-!
Verification of the profile-picture upload/serve endpoints and the user-list
endpoint of the Nuxt template repository.

The development shallowly embeds the three request handlers:
 - the serve handler (first handler of `server/api/users/[id]/profile.get.ts`),
 - the upload handler (second handler of the same file),
 - the list-users handler (`server/api/users/index.get.ts`),
as pure Lean functions over an explicit filesystem state, an explicit user
table, and explicit request inputs.  Nondeterministic inputs of a run — the
generated random image id (`crypto.randomUUID()`) and the outcome of the
background disk write — are passed as parameters.
-/

namespace NuxtTemplate

/-- JavaScript `o || d` on a nullable string: `null`/`undefined` and the empty
string are falsy, every other string is returned unchanged. -/
def jsStrOr (o : Option String) (d : String) : String :=
  match o with
  | none => d
  | some s => if s = "" then d else s

/-- Concatenation of path segments with a single `/` separator. -/
def joinSegs : List String → String
  | [] => ""
  | [s] => s
  | s :: rest => s ++ "/" ++ joinSegs rest

/-- Models Node `path.join`: empty segments are dropped and the rest are glued
with `/`.  This is faithful for exactly the segment values these handlers
produce — literals, opaque user ids and UUID filenames, none of which contain
separators or dot-segments, so Node performs no further normalisation. -/
def pathJoin (segs : List String) : String :=
  joinSegs (segs.filter (fun s => s ≠ ""))

/-- A path segment on which Node `path.join` performs no normalisation:
non-empty, no separator, not a dot-segment.  Session user ids and
`crypto.randomUUID()` outputs always satisfy this. -/
def plainSegment (s : String) : Bool :=
  s ≠ "" && !(s.data.contains ('/')) && s ≠ "." && s ≠ ".."

/-- Filesystem state: regular files with their byte contents, and directories.
`mkdirSync` with `recursive: true` is modelled as recording the requested
directory; the ancestor directories it also creates are not observable by any
query these handlers perform, so they are elided. -/
structure Fs where
  files : List (String × List Nat)
  dirs : List String
deriving DecidableEq, Repr

/-- Contents of the regular file at `p`, if any (most recent write wins). -/
def Fs.readFile (fs : Fs) (p : String) : Option (List Nat) :=
  fs.files.lookup p

/-- Node `fs.existsSync`: true for regular files and for directories. -/
def Fs.existsSync (fs : Fs) (p : String) : Bool :=
  (fs.readFile p).isSome || fs.dirs.contains p

/-- Effect of `fs.mkdirSync(p, { recursive: true })` on the model. -/
def Fs.mkdirSync (fs : Fs) (p : String) : Fs :=
  { fs with dirs := p :: fs.dirs }

/-- Effect of a completed, successful disk write of `b` at path `p`. -/
def Fs.writeFileAt (fs : Fs) (p : String) (b : List Nat) : Fs :=
  { fs with files := (p, b) :: fs.files }

/-- An authenticated session, reduced to the only field the handlers read:
`session.user.id`. -/
structure Session where
  userId : String
deriving DecidableEq, Repr

/-- One part of the multipart form body, as produced by
`readMultipartFormData`: a field name and an optional data buffer.  The
`data` field is `none` exactly when `file.data` is JavaScript-falsy
(`undefined`/`null`); note that an *empty* buffer is truthy in JavaScript and
is therefore modelled as `some []`. -/
structure FormPart where
  name : String
  data : Option (List Nat)
deriving DecidableEq, Repr

/-- The user table restricted to the one column these handlers touch:
user id ↦ nullable image path. -/
abbrev Db := List (String × Option String)

/-- Models `prisma.user.findUnique({ where: { id: uid }, select: { image: true } })`:
outer `none` is a missing record, inner `none` a null `image` column. -/
def dbFindImage (db : Db) (uid : String) : Option (Option String) :=
  db.lookup uid

/-- Optional chaining `record?.image` on the result of the lookup:
`undefined` when the record is missing, otherwise its nullable image. -/
def recordImage (db : Db) (uid : String) : Option String :=
  match dbFindImage db uid with
  | none => none
  | some img => img

/-- Models `prisma.user.update({ where: { id: uid }, data: { image: img } })`:
sets the image column when the record exists; `none` models the rejected
promise Prisma produces for a missing record. -/
def dbUpdateImage (db : Db) (uid : String) (img : String) : Option Db :=
  if (db.lookup uid).isSome then
    some (db.map (fun kv => if kv.1 = uid then (kv.1, some img) else kv))
  else none

/-- Value of `process.env.UPLOAD_STORAGE_PATH || 'public/images'`. -/
def uploadRoot (env : Option String) : String :=
  jsStrOr env "public/images"

/-- Value of `path.join(root, 'users', session.user.id, 'images')` — the per-user
directory the upload handler creates. -/
def userImagesDir (env : Option String) (uid : String) : String :=
  pathJoin [uploadRoot env, "users", uid, "images"]

/-- Value of `path.join(dirPath, randomImageId)` — the on-disk location of the blob. -/
def uploadFilePath (env : Option String) (uid rid : String) : String :=
  pathJoin [userImagesDir env uid, rid]

/-- Value of `path.join('users', session.user.id, 'images', randomImageId)` — the
relative path the upload handler persists in the user record. -/
def storedImagePath (uid rid : String) : String :=
  pathJoin ["users", uid, "images", rid]

/-- Response of the serve handler.  `streamOk` is the 200 path
(`sendStream` with `Content-Type: application/octet-stream`); its payload is
the contents of the regular file at the resolved path, or `none` when the
path exists on disk but is not a regular file (the stream then errors after
the existence check has passed). -/
inductive ServeResult
  | unauthorized
  | missingUserId
  | fileNotFound
  | streamOk (bytes : Option (List Nat))
deriving DecidableEq, Repr

/-- Embeds the serve handler of `server/api/users/[id]/profile.get.ts`, step
by step in source order: session check (401), route-param check (400, with
JavaScript falsiness on the param), `findUnique` on the image column,
`path.join(root, imagePath || 'null')`, `existsSync` check (404), stream. -/
def serve (env : Option String) (session : Option Session) (userId : Option String)
    (db : Db) (fs : Fs) : ServeResult :=
  match session with
  | none => .unauthorized
  | some _ =>
    match userId with
    | none => .missingUserId
    | some uid =>
      if uid = "" then .missingUserId
      else
        let imagePath : Option String := recordImage db uid
        let filePath := pathJoin [uploadRoot env, jsStrOr imagePath "null"]
        if fs.existsSync filePath then .streamOk (fs.readFile filePath)
        else .fileNotFound

/-- Response of the upload handler.  The four error constructors before
`created` carry status 401, 400, 400 and 400 respectively; `recordNotFound`
models the unhandled rejection of `prisma.user.update` on a missing record
(a generic server error, not a 4xx). -/
inductive UploadResult
  | unauthorized
  | noFormData
  | fileMissing
  | imageAlreadyExists
  | recordNotFound
  | created
deriving DecidableEq, Repr

/-- Whether the response carries HTTP status 400. -/
def UploadResult.is400 : UploadResult → Bool
  | noFormData | fileMissing | imageAlreadyExists => true
  | _ => false

/-- Full outcome of one upload request: the response, the filesystem and user
table after the request (including the eventual effect of the background
write), and any error the write delivered to its callback.  That error is
rethrown inside the callback, outside the handler, so it surfaces as an
uncaught exception and never as part of the response. -/
structure UploadOutcome where
  response : UploadResult
  fs : Fs
  db : Db
  uncaught : Option String
deriving DecidableEq, Repr

/-- Embeds the upload handler (second handler of
`server/api/users/[id]/profile.get.ts`) in source order: session check (401),
`readMultipartFormData` (400 when absent), `form.find(i => i.name === 'file')`
and the `!file || !file.data` check (400), directory creation, random
filename, `existsSync` collision check (400), the disk write, then
`prisma.user.update` and 201.

The source calls `await fs.writeFile(filePath, file.data, cb)`: this is the
callback API of `node:fs`, which returns `undefined`, so the `await` resumes
immediately and the handler proceeds to the database update and the 201
response without waiting for the write.  The write completes in the
background with outcome `writeErr` (`none` = success); on failure the file is
absent and the error goes to the callback, which rethrows it outside the
handler (`uncaught`).  The model applies the background write's final effect
to the filesystem state within this step. -/
def upload (env : Option String) (session : Option Session) (form : Option (List FormPart))
    (randomImageId : String) (writeErr : Option String) (fs : Fs) (db : Db) : UploadOutcome :=
  match session with
  | none => ⟨.unauthorized, fs, db, none⟩
  | some s =>
    match form with
    | none => ⟨.noFormData, fs, db, none⟩
    | some parts =>
      match parts.find? (fun p => p.name = "file") with
      | none => ⟨.fileMissing, fs, db, none⟩
      | some file =>
        match file.data with
        | none => ⟨.fileMissing, fs, db, none⟩
        | some bytes =>
          let dirPath := userImagesDir env s.userId
          let fs1 := if fs.existsSync dirPath then fs else fs.mkdirSync dirPath
          let filePath := uploadFilePath env s.userId randomImageId
          if fs1.existsSync filePath then
            ⟨.imageAlreadyExists, fs1, db, none⟩
          else
            let fs2 := match writeErr with
              | none => fs1.writeFileAt filePath bytes
              | some _ => fs1
            match dbUpdateImage db s.userId (storedImagePath s.userId randomImageId) with
            | none => ⟨.recordNotFound, fs2, db, writeErr⟩
            | some db2 => ⟨.created, fs2, db2, writeErr⟩

/-- A row of the user table as selected by `server/api/users/index.get.ts`. -/
structure UserRow where
  id : String
  email : String
  name : String
  emailVerified : Bool
  image : Option String
deriving DecidableEq, Repr

/-- A row of the list-users response: every field copied, except `image`,
replaced by the boolean `user.image != null`. -/
structure RedactedUser where
  id : String
  email : String
  name : String
  emailVerified : Bool
  image : Bool
deriving DecidableEq, Repr

/-- Embeds `server/api/users/index.get.ts`: `findMany` over the user table
followed by the redaction map. -/
def listUsers (users : List UserRow) : List RedactedUser :=
  users.map (fun user => ⟨user.id, user.email, user.name, user.emailVerified, user.image.isSome⟩)

/-- A request to either endpoint, with its per-run nondeterminism. -/
inductive Request
  | serveReq (session : Option Session) (userId : Option String)
  | uploadReq (session : Option Session) (form : Option (List FormPart))
      (randomImageId : String) (writeErr : Option String)

/-- A response from either endpoint. -/
inductive Response
  | fromServe (r : ServeResult)
  | fromUpload (r : UploadResult)
deriving DecidableEq, Repr

/-- The shared mutable state both endpoints run against. -/
abbrev State := Fs × Db

/-- One request against the shared state: the serve handler performs only
reads (`getSession`, `findUnique`, `existsSync`, `createReadStream`), the
upload handler's state is the one produced by `upload`. -/
def step (env : Option String) (σ : State) : Request → Response × State
  | .serveReq ses uid => (.fromServe (serve env ses uid σ.2 σ.1), σ)
  | .uploadReq ses form rid werr =>
      let o := upload env ses form rid werr σ.1 σ.2
      (.fromUpload o.response, (o.fs, o.db))

/-- Runs a sequence of requests, collecting the responses. -/
def run (env : Option String) (σ : State) : List Request → List Response × State
  | [] => ([], σ)
  | r :: rs =>
      let p := step env σ r
      let q := run env p.2 rs
      (p.1 :: q.1, q.2)

/-! Helper lemmas -/

lemma append_ne_empty_left (a b : String) (h : a ≠ "") : a ++ b ≠ "" := by
  intro hab
  apply h
  have hd : (a ++ b).data = ("" : String).data := by rw [hab]
  simp [String.data_append] at hd
  exact String.ext hd.1

lemma jsStrOr_ne_empty (o : Option String) (d : String) (hd : d ≠ "") : jsStrOr o d ≠ "" := by
  cases o with
  | none => exact hd
  | some s => by_cases hs : s = "" <;> simp [jsStrOr, hs, hd]

lemma uploadRoot_ne_empty (env : Option String) : uploadRoot env ≠ "" :=
  jsStrOr_ne_empty env _ (by decide)

lemma pathJoin_pair (a b : String) (ha : a ≠ "") (hb : b ≠ "") :
    pathJoin [a, b] = a ++ "/" ++ b := by
  simp [pathJoin, List.filter, ha, hb, joinSegs]

lemma pathJoin_quad (a b c d : String) (ha : a ≠ "") (hb : b ≠ "") (hc : c ≠ "") (hd : d ≠ "") :
    pathJoin [a, b, c, d] = a ++ "/" ++ (b ++ "/" ++ (c ++ "/" ++ d)) := by
  simp [pathJoin, List.filter, ha, hb, hc, hd, joinSegs]

lemma userImagesDir_eq (env : Option String) (uid : String) (hu : uid ≠ "") :
    userImagesDir env uid
      = uploadRoot env ++ "/" ++ ("users" ++ "/" ++ (uid ++ "/" ++ "images")) := by
  rw [userImagesDir, pathJoin_quad _ _ _ _ (uploadRoot_ne_empty env) (by decide) hu (by decide)]

lemma storedImagePath_eq (uid rid : String) (hu : uid ≠ "") (hr : rid ≠ "") :
    storedImagePath uid rid
      = "users" ++ "/" ++ (uid ++ "/" ++ ("images" ++ "/" ++ rid)) := by
  rw [storedImagePath, pathJoin_quad _ _ _ _ (by decide) hu (by decide) hr]

lemma storedImagePath_ne_empty (uid rid : String) (hu : uid ≠ "") (hr : rid ≠ "") :
    storedImagePath uid rid ≠ "" := by
  rw [storedImagePath_eq uid rid hu hr]
  exact append_ne_empty_left _ _ (by decide)

lemma serve_path_eq (env : Option String) (uid rid : String) (hu : uid ≠ "") (hr : rid ≠ "") :
    pathJoin [uploadRoot env, storedImagePath uid rid] = uploadFilePath env uid rid := by
  have hroot := uploadRoot_ne_empty env
  have hsp := storedImagePath_ne_empty uid rid hu hr
  have hdir : userImagesDir env uid ≠ "" := by
    rw [userImagesDir_eq env uid hu]
    exact append_ne_empty_left _ _ (append_ne_empty_left _ _ hroot)
  rw [pathJoin_pair _ _ hroot hsp, uploadFilePath, pathJoin_pair _ _ hdir hr,
    userImagesDir_eq env uid hu, storedImagePath_eq uid rid hu hr]
  apply String.ext
  simp [String.data_append, List.append_assoc]

lemma lookup_map_update (db : Db) (uid img : String) (h : (db.lookup uid).isSome = true) :
    (db.map (fun kv => if kv.1 = uid then (kv.1, some img) else kv)).lookup uid
      = some (some img) := by
  induction db with
  | nil => simp [List.lookup] at h
  | cons kv t ih =>
      obtain ⟨k, v⟩ := kv
      by_cases hk : k = uid
      · subst hk
        have hmap : (if ((k, v) : String × Option String).1 = k
              then (((k, v) : String × Option String).1, some img) else (k, v))
            = ((k, some img) : String × Option String) := by simp
        rw [List.map_cons, hmap]
        simp [List.lookup]
      · have huk : (uid == k) = false := by
          rw [beq_eq_false_iff_ne]
          exact fun hh => hk hh.symm
        have hmap : (if ((k, v) : String × Option String).1 = uid
              then (((k, v) : String × Option String).1, some img) else (k, v))
            = ((k, v) : String × Option String) := by simp [hk]
        rw [List.map_cons, hmap]
        simp only [List.lookup, huk] at h ⊢
        exact ih h

lemma dbUpdateImage_lookup (db : Db) (uid img : String) (h : (db.lookup uid).isSome = true) :
    ∃ db2, dbUpdateImage db uid img = some db2 ∧ db2.lookup uid = some (some img) := by
  refine ⟨_, ?_, lookup_map_update db uid img h⟩
  simp [dbUpdateImage, h]

lemma upload_db_change_only_created (env : Option String) (ses : Option Session)
    (form : Option (List FormPart)) (rid : String) (werr : Option String) (fs : Fs) (db : Db)
    (h : (upload env ses form rid werr fs db).db ≠ db) :
    (upload env ses form rid werr fs db).response = UploadResult.created := by
  cases ses with
  | none => simp [upload] at h
  | some s =>
    cases form with
    | none => simp [upload] at h
    | some parts =>
      cases hf : parts.find? (fun p => p.name = "file") with
      | none => simp [upload, hf] at h
      | some file =>
        cases hd : file.data with
        | none => simp [upload, hf, hd] at h
        | some bytes =>
          by_cases hex : (if fs.existsSync (userImagesDir env s.userId) then fs
              else fs.mkdirSync (userImagesDir env s.userId)).existsSync
                (uploadFilePath env s.userId rid) = true
          · simp [upload, hf, hd, hex] at h
          · rw [Bool.not_eq_true] at hex
            cases hupd : dbUpdateImage db s.userId (storedImagePath s.userId rid) with
            | none => simp [upload, hf, hd, hex, hupd] at h
            | some db2 => simp [upload, hf, hd, hex, hupd]

/-! Claim theorems -/

/-- C1, counterexample: the serve handler checks the session first, so an
unauthenticated serve request for an existing image is answered 401, and the
same request with a session is not — the response does depend on
authentication.  This refutes the claim that no serve request is answered
with 401. -/
theorem serve_unauthenticated_401 :
    serve none none (some "u1") [("u1", some "users/u1/images/a")] ⟨[], []⟩
      = ServeResult.unauthorized ∧
    serve none (some ⟨"s1"⟩) (some "u1") [("u1", some "users/u1/images/a")] ⟨[], []⟩
      ≠ ServeResult.unauthorized := by
  constructor <;> decide

/-- C1, amended: the serve handler requires an authenticated session.  Every
serve request without a session is answered 401; with a session the serve
endpoint never answers 401, and its responses are 400 (missing user
identifier), 404, or the 200 stream. -/
theorem serve_requires_session :
    (∀ env uid db fs, serve env none uid db fs = ServeResult.unauthorized) ∧
    (∀ env ses uid db fs,
      serve env (some ses) uid db fs ≠ ServeResult.unauthorized ∧
      (serve env (some ses) uid db fs = ServeResult.missingUserId ∨
       serve env (some ses) uid db fs = ServeResult.fileNotFound ∨
       ∃ b, serve env (some ses) uid db fs = ServeResult.streamOk b)) := by
  constructor
  · intro env uid db fs; rfl
  · intro env ses uid db fs
    cases uid with
    | none => exact ⟨by simp [serve], Or.inl rfl⟩
    | some u =>
      by_cases hu : u = ""
      · exact ⟨by simp [serve, hu], Or.inl (by simp [serve, hu])⟩
      · have hserve : serve env (some ses) (some u) db fs =
            (if fs.existsSync (pathJoin [uploadRoot env, jsStrOr (recordImage db u) "null"])
             then ServeResult.streamOk
               (fs.readFile (pathJoin [uploadRoot env, jsStrOr (recordImage db u) "null"]))
             else ServeResult.fileNotFound) := by
          simp [serve, hu]
        rw [hserve]
        split
        · exact ⟨by simp, Or.inr (Or.inr ⟨_, rfl⟩)⟩
        · exact ⟨by simp, Or.inr (Or.inl rfl)⟩

/-- C4: an upload request without an authenticated session is answered 401
and changes nothing: the filesystem and the user table are returned
untouched, and no error escapes.  The session check is the first statement
of the handler, before any disk or database access. -/
theorem upload_unauthenticated_noop :
    ∀ env form rid werr fs db,
      upload env none form rid werr fs db
        = ⟨UploadResult.unauthorized, fs, db, none⟩ := by
  intro env form rid werr fs db; rfl

/-- C3, evaluation at the failing input: an authenticated upload whose
background disk write fails still responds 201, still records the image path
in the user record, leaves no file on disk, and the write error surfaces
only as an uncaught exception — because `await fs.writeFile(path, data, cb)`
awaits the `undefined` returned by the callback API instead of the write. -/
theorem upload_writeFailure_records_path :
    (upload none (some ⟨"u1"⟩) (some [⟨"file", some [1, 2, 3]⟩]) "img1" (some "EIO")
        ⟨[], []⟩ [("u1", none)]).response = UploadResult.created ∧
    (upload none (some ⟨"u1"⟩) (some [⟨"file", some [1, 2, 3]⟩]) "img1" (some "EIO")
        ⟨[], []⟩ [("u1", none)]).db = [("u1", some "users/u1/images/img1")] ∧
    (upload none (some ⟨"u1"⟩) (some [⟨"file", some [1, 2, 3]⟩]) "img1" (some "EIO")
        ⟨[], []⟩ [("u1", none)]).fs.readFile "public/images/users/u1/images/img1" = none ∧
    (upload none (some ⟨"u1"⟩) (some [⟨"file", some [1, 2, 3]⟩]) "img1" (some "EIO")
        ⟨[], []⟩ [("u1", none)]).uncaught = some "EIO" := by
  decide

/-- C2, counterexample: an authenticated upload of the bytes `[1, 2, 3]`
whose background disk write fails is still answered 201, and the subsequent
serve request for that user is answered 404 rather than 200 with the
uploaded bytes — so "201 implies the next serve returns the bytes" is false
as stated. -/
theorem upload_writeFailure_breaks_roundtrip :
    (upload none (some ⟨"u1"⟩) (some [⟨"file", some [1, 2, 3]⟩]) "img1" (some "EIO")
        ⟨[], []⟩ [("u1", none)]).response = UploadResult.created ∧
    serve none (some ⟨"u2"⟩) (some "u1")
        (upload none (some ⟨"u1"⟩) (some [⟨"file", some [1, 2, 3]⟩]) "img1" (some "EIO")
          ⟨[], []⟩ [("u1", none)]).db
        (upload none (some ⟨"u1"⟩) (some [⟨"file", some [1, 2, 3]⟩]) "img1" (some "EIO")
          ⟨[], []⟩ [("u1", none)]).fs
      = ServeResult.fileNotFound := by
  decide

/-- C2, amended: when an authenticated upload carries a non-empty `file`
field with bytes B, the user exists in the table, the generated filename
does not land on an existing path, and the background disk write completes
successfully, then the upload is answered 201 and a subsequent
*authenticated* serve request for that user is answered 200 with exactly
the bytes B. -/
theorem upload_then_serve_roundtrip
    (env : Option String) (ses sesServe : Session) (parts : List FormPart) (f : FormPart)
    (bytes : List Nat) (rid : String) (fs : Fs) (db : Db)
    (hfind : parts.find? (fun p => p.name = "file") = some f)
    (hdata : f.data = some bytes)
    (hbytes : bytes ≠ [])
    (huid : ses.userId ≠ "")
    (hrid : rid ≠ "")
    (hfresh : (if fs.existsSync (userImagesDir env ses.userId) then fs
               else fs.mkdirSync (userImagesDir env ses.userId)).existsSync
                 (uploadFilePath env ses.userId rid) = false)
    (hdb : (db.lookup ses.userId).isSome = true) :
    (upload env (some ses) (some parts) rid none fs db).response = UploadResult.created ∧
    serve env (some sesServe) (some ses.userId)
        (upload env (some ses) (some parts) rid none fs db).db
        (upload env (some ses) (some parts) rid none fs db).fs
      = ServeResult.streamOk (some bytes) := by
  obtain ⟨db2, hupd, hlook⟩ :=
    dbUpdateImage_lookup db ses.userId (storedImagePath ses.userId rid) hdb
  have hout : upload env (some ses) (some parts) rid none fs db =
      ⟨UploadResult.created,
       (if fs.existsSync (userImagesDir env ses.userId) then fs
        else fs.mkdirSync (userImagesDir env ses.userId)).writeFileAt
         (uploadFilePath env ses.userId rid) bytes,
       db2, none⟩ := by
    simp [upload, hfind, hdata, hfresh, hupd]
  rw [hout]
  refine ⟨rfl, ?_⟩
  have hsp : storedImagePath ses.userId rid ≠ "" := storedImagePath_ne_empty _ _ huid hrid
  have hpath : pathJoin [uploadRoot env, storedImagePath ses.userId rid]
      = uploadFilePath env ses.userId rid := serve_path_eq env ses.userId rid huid hrid
  simp [serve, recordImage, dbFindImage, hlook, jsStrOr, hsp, hpath, Fs.existsSync,
    Fs.readFile, Fs.writeFileAt, List.lookup, huid]

/-- C2, witness: concrete round trip — user u1 uploads `[1, 2, 3]`, the
write succeeds, and the authenticated serve for u1 streams `[1, 2, 3]`. -/
theorem upload_then_serve_roundtrip_witness :
    (upload none (some ⟨"u1"⟩) (some [⟨"file", some [1, 2, 3]⟩]) "img1" none
        ⟨[], []⟩ [("u1", none)]).response = UploadResult.created ∧
    serve none (some ⟨"u2"⟩) (some (Session.mk "u1").userId)
        (upload none (some ⟨"u1"⟩) (some [⟨"file", some [1, 2, 3]⟩]) "img1" none
          ⟨[], []⟩ [("u1", none)]).db
        (upload none (some ⟨"u1"⟩) (some [⟨"file", some [1, 2, 3]⟩]) "img1" none
          ⟨[], []⟩ [("u1", none)]).fs
      = ServeResult.streamOk (some [1, 2, 3]) :=
  upload_then_serve_roundtrip none ⟨"u1"⟩ ⟨"u2"⟩ [⟨"file", some [1, 2, 3]⟩]
    ⟨"file", some [1, 2, 3]⟩ [1, 2, 3] "img1" ⟨[], []⟩ [("u1", none)]
    (by decide) rfl (by decide) (by decide) (by decide) (by decide) (by decide)

/-- C5, counterexample: the serve handler computes
`path.join(root, imagePath || 'null')`, so a user with *no* recorded image
path is not necessarily answered 404 — if a file literally named `null`
exists directly under the storage root, its contents are streamed with 200.
This refutes the claim that a missing recorded path always yields 404. -/
theorem serve_noImage_serves_null_file :
    serve none (some ⟨"s1"⟩) (some "u1") [("u1", none)]
        ⟨[("public/images/null", [9])], []⟩
      = ServeResult.streamOk (some [9]) := by
  decide

/-- C5, amended: for an authenticated serve request with a non-empty user
identifier, if no image path is recorded and no entry named `null` exists
directly under the storage root, the response is 404; and if a non-empty
path is recorded but does not resolve to an existing entry under the root,
the response is 404.  The two cases produce the identical not-found
response. -/
theorem serve_notFound_cases (env : Option String) (ses : Session) (uid : String)
    (db : Db) (fs : Fs) (hu : uid ≠ "") :
    (recordImage db uid = none →
      fs.existsSync (pathJoin [uploadRoot env, "null"]) = false →
      serve env (some ses) (some uid) db fs = ServeResult.fileNotFound) ∧
    (∀ p, recordImage db uid = some p → p ≠ "" →
      fs.existsSync (pathJoin [uploadRoot env, p]) = false →
      serve env (some ses) (some uid) db fs = ServeResult.fileNotFound) := by
  constructor
  · intro him hex
    simp [serve, hu, him, jsStrOr, hex]
  · intro p him hp hex
    simp [serve, hu, him, jsStrOr, hp, hex]

/-- C5, witness: both not-found cases at concrete states — u1 has no
recorded path (and no `null` file exists), u2 has a recorded path whose
file is missing; both serves answer the same 404. -/
theorem serve_notFound_cases_witness :
    serve none (some ⟨"s1"⟩) (some "u1") [("u1", none)] ⟨[], []⟩
      = ServeResult.fileNotFound ∧
    serve none (some ⟨"s1"⟩) (some "u2") [("u2", some "users/u2/images/a")] ⟨[], []⟩
      = ServeResult.fileNotFound :=
  ⟨(serve_notFound_cases none ⟨"s1"⟩ "u1" [("u1", none)] ⟨[], []⟩ (by decide)).1
      (by decide) (by decide),
   (serve_notFound_cases none ⟨"s1"⟩ "u2" [("u2", some "users/u2/images/a")] ⟨[], []⟩
      (by decide)).2 "users/u2/images/a" (by decide) (by decide) (by decide)⟩

/-- C6, counterexample: an authenticated upload whose form carries a valid
`file` field is still answered 400 when the freshly generated filename
collides with an existing path on disk (the `Image already exists.` branch),
refuting "400 exactly when the form or the file field is absent". -/
theorem upload_400_on_name_collision :
    (upload none (some ⟨"u1"⟩) (some [⟨"file", some [1]⟩]) "img1" none
        ⟨[("public/images/users/u1/images/img1", [7])], ["public/images/users/u1/images"]⟩
        [("u1", none)]).response = UploadResult.imageAlreadyExists ∧
    (upload none (some ⟨"u1"⟩) (some [⟨"file", some [1]⟩]) "img1" none
        ⟨[("public/images/users/u1/images/img1", [7])], ["public/images/users/u1/images"]⟩
        [("u1", none)]).response.is400 = true := by
  decide

/-- C6, amended: an authenticated upload is answered 400 exactly when the
multipart form is absent, or the form has no `file` field, or the `file`
field carries no data buffer, or the freshly generated target filename
already exists on disk.  In every other case the response is not a 400. -/
theorem upload_400_characterization (env : Option String) (ses : Session)
    (form : Option (List FormPart)) (rid : String) (werr : Option String)
    (fs : Fs) (db : Db) :
    (upload env (some ses) form rid werr fs db).response.is400 = true ↔
      (form = none
       ∨ ∃ parts, form = some parts ∧
          (parts.find? (fun p => p.name = "file") = none
           ∨ (∃ f, parts.find? (fun p => p.name = "file") = some f ∧ f.data = none)
           ∨ (∃ f b, parts.find? (fun p => p.name = "file") = some f ∧ f.data = some b ∧
               (if fs.existsSync (userImagesDir env ses.userId) then fs
                else fs.mkdirSync (userImagesDir env ses.userId)).existsSync
                 (uploadFilePath env ses.userId rid) = true))) := by
  cases form with
  | none =>
    have hresp : (upload env (some ses) none rid werr fs db).response
        = UploadResult.noFormData := rfl
    rw [hresp]
    exact iff_of_true rfl (Or.inl rfl)
  | some parts =>
    cases hf : parts.find? (fun p => p.name = "file") with
    | none =>
      have hresp : (upload env (some ses) (some parts) rid werr fs db).response
          = UploadResult.fileMissing := by simp [upload, hf]
      rw [hresp]
      exact iff_of_true rfl (Or.inr ⟨parts, rfl, Or.inl hf⟩)
    | some f =>
      cases hd : f.data with
      | none =>
        have hresp : (upload env (some ses) (some parts) rid werr fs db).response
            = UploadResult.fileMissing := by simp [upload, hf, hd]
        rw [hresp]
        exact iff_of_true rfl (Or.inr ⟨parts, rfl, Or.inr (Or.inl ⟨f, hf, hd⟩)⟩)
      | some b =>
        by_cases hex : (if fs.existsSync (userImagesDir env ses.userId) then fs
            else fs.mkdirSync (userImagesDir env ses.userId)).existsSync
              (uploadFilePath env ses.userId rid) = true
        · have hresp : (upload env (some ses) (some parts) rid werr fs db).response
              = UploadResult.imageAlreadyExists := by simp [upload, hf, hd, hex]
          rw [hresp]
          exact iff_of_true rfl
            (Or.inr ⟨parts, rfl, Or.inr (Or.inr ⟨f, b, hf, hd, hex⟩)⟩)
        · rw [Bool.not_eq_true] at hex
          have h400 : (upload env (some ses) (some parts) rid werr fs db).response.is400
              = false := by
            cases hupd : dbUpdateImage db ses.userId (storedImagePath ses.userId rid) with
            | none => simp [upload, hf, hd, hex, hupd, UploadResult.is400]
            | some db2 => simp [upload, hf, hd, hex, hupd, UploadResult.is400]
          refine iff_of_false (by simp [h400]) ?_
          rintro (hno | ⟨parts2, hp2, hcase⟩)
          · exact Option.noConfusion hno
          · obtain rfl := Option.some.inj hp2
            rcases hcase with hnone | ⟨f2, hf2, hd2⟩ | ⟨f2, b2, hf2, hd2, hex2⟩
            · rw [hf] at hnone
              exact Option.noConfusion hnone
            · rw [hf] at hf2
              injection hf2 with hfe
              rw [← hfe, hd] at hd2
              exact Option.noConfusion hd2
            · rw [hex] at hex2
              exact Bool.noConfusion hex2

/-- C7, counterexample: an authenticated upload whose `file` field carries
an *empty* byte buffer is not rejected: `!file.data` is false for an empty
buffer (a zero-length `Buffer` is truthy in JavaScript), so the handler
answers 201, writes a zero-length blob, and records the path — refuting
"rejected as a client error (400)". -/
theorem upload_emptyBuffer_accepted :
    (upload none (some ⟨"u1"⟩) (some [⟨"file", some []⟩]) "img1" none
        ⟨[], []⟩ [("u1", none)]).response = UploadResult.created ∧
    (upload none (some ⟨"u1"⟩) (some [⟨"file", some []⟩]) "img1" none
        ⟨[], []⟩ [("u1", none)]).response.is400 = false ∧
    (upload none (some ⟨"u1"⟩) (some [⟨"file", some []⟩]) "img1" none
        ⟨[], []⟩ [("u1", none)]).fs.readFile "public/images/users/u1/images/img1" = some [] ∧
    (upload none (some ⟨"u1"⟩) (some [⟨"file", some []⟩]) "img1" none
        ⟨[], []⟩ [("u1", none)]).db = [("u1", some "users/u1/images/img1")] := by
  decide

/-- C7, amended: an authenticated upload whose `file` field carries an
empty byte buffer is *accepted*: provided the user exists and the generated
filename is fresh, the response is 201 (not a 400), a zero-length blob is
written at the generated path, and the user record is updated to point at
it.  Only a missing form, a missing `file` field, or a `file` field with no
data buffer trigger the 400 branch. -/
theorem upload_emptyBuffer_writes_blob (env : Option String) (ses : Session)
    (parts : List FormPart) (f : FormPart) (rid : String) (fs : Fs) (db : Db)
    (hfind : parts.find? (fun p => p.name = "file") = some f)
    (hdata : f.data = some [])
    (hfresh : (if fs.existsSync (userImagesDir env ses.userId) then fs
               else fs.mkdirSync (userImagesDir env ses.userId)).existsSync
                 (uploadFilePath env ses.userId rid) = false)
    (hdb : (db.lookup ses.userId).isSome = true) :
    (upload env (some ses) (some parts) rid none fs db).response = UploadResult.created ∧
    (upload env (some ses) (some parts) rid none fs db).response.is400 = false ∧
    (upload env (some ses) (some parts) rid none fs db).fs.readFile
        (uploadFilePath env ses.userId rid) = some [] ∧
    (upload env (some ses) (some parts) rid none fs db).db.lookup ses.userId
      = some (some (storedImagePath ses.userId rid)) := by
  obtain ⟨db2, hupd, hlook⟩ :=
    dbUpdateImage_lookup db ses.userId (storedImagePath ses.userId rid) hdb
  simp [upload, hfind, hdata, hfresh, hupd, UploadResult.is400, Fs.readFile,
    Fs.writeFileAt, List.lookup, hlook]

/-- C7, witness for the amended statement: concrete empty-buffer upload. -/
theorem upload_emptyBuffer_writes_blob_witness :
    (upload none (some ⟨"u1"⟩) (some [⟨"file", some []⟩]) "img2" none
        ⟨[], []⟩ [("u1", none)]).response = UploadResult.created ∧
    (upload none (some ⟨"u1"⟩) (some [⟨"file", some []⟩]) "img2" none
        ⟨[], []⟩ [("u1", none)]).response.is400 = false ∧
    (upload none (some ⟨"u1"⟩) (some [⟨"file", some []⟩]) "img2" none
        ⟨[], []⟩ [("u1", none)]).fs.readFile
        (uploadFilePath none (Session.mk "u1").userId "img2") = some [] ∧
    (upload none (some ⟨"u1"⟩) (some [⟨"file", some []⟩]) "img2" none
        ⟨[], []⟩ [("u1", none)]).db.lookup (Session.mk "u1").userId
      = some (some (storedImagePath (Session.mk "u1").userId "img2")) :=
  upload_emptyBuffer_writes_blob none ⟨"u1"⟩ [⟨"file", some []⟩] ⟨"file", some []⟩
    "img2" ⟨[], []⟩ [("u1", none)] (by decide) rfl (by decide) (by decide)

/-- C8: on a successful authenticated upload (file field present, fresh
generated name, successful write, existing user record) the path stored in
the user's image field is exactly `users/<ownerId>/images/<filename>` for
the generated filename; that string is relative — it begins with the
character `u`, never with the separator an absolute path starts with — and
the blob bytes sit at the corresponding location under the storage root.
The final conjunct shows the user record is mutated only by executions that
reached the branch following the disk write (those answering 201). -/
theorem upload_stores_relative_path (env : Option String) (ses : Session)
    (parts : List FormPart) (f : FormPart) (bytes : List Nat) (rid : String)
    (fs : Fs) (db : Db)
    (hfind : parts.find? (fun p => p.name = "file") = some f)
    (hdata : f.data = some bytes)
    (hplainU : plainSegment ses.userId = true)
    (hplainR : plainSegment rid = true)
    (hfresh : (if fs.existsSync (userImagesDir env ses.userId) then fs
               else fs.mkdirSync (userImagesDir env ses.userId)).existsSync
                 (uploadFilePath env ses.userId rid) = false)
    (hdb : (db.lookup ses.userId).isSome = true) :
    (upload env (some ses) (some parts) rid none fs db).response = UploadResult.created ∧
    (upload env (some ses) (some parts) rid none fs db).db.lookup ses.userId
      = some (some (storedImagePath ses.userId rid)) ∧
    storedImagePath ses.userId rid
      = "users" ++ "/" ++ (ses.userId ++ "/" ++ ("images" ++ "/" ++ rid)) ∧
    (storedImagePath ses.userId rid).data.head? = some ('u') ∧
    (upload env (some ses) (some parts) rid none fs db).fs.readFile
        (uploadFilePath env ses.userId rid) = some bytes ∧
    (∀ env2 ses2 form2 rid2 werr2 fs2 db2,
      (upload env2 ses2 form2 rid2 werr2 fs2 db2).db ≠ db2 →
      (upload env2 ses2 form2 rid2 werr2 fs2 db2).response = UploadResult.created) := by
  have hu : ses.userId ≠ "" := by
    intro hh
    rw [hh] at hplainU
    exact absurd hplainU (by decide)
  have hr : rid ≠ "" := by
    intro hh
    rw [hh] at hplainR
    exact absurd hplainR (by decide)
  obtain ⟨db2, hupd, hlook⟩ :=
    dbUpdateImage_lookup db ses.userId (storedImagePath ses.userId rid) hdb
  have hsp := storedImagePath_eq ses.userId rid hu hr
  refine ⟨?_, ?_, hsp, ?_, ?_, ?_⟩
  · simp [upload, hfind, hdata, hfresh, hupd]
  · simp [upload, hfind, hdata, hfresh, hupd, hlook]
  · rw [hsp]
    rfl
  · simp [upload, hfind, hdata, hfresh, hupd, Fs.readFile, Fs.writeFileAt, List.lookup]
  · exact fun env2 ses2 form2 rid2 werr2 fs2 db2 h =>
      upload_db_change_only_created env2 ses2 form2 rid2 werr2 fs2 db2 h

/-- C8, witness: concrete successful upload by u1; the stored path is
`users/u1/images/img1`. -/
theorem upload_stores_relative_path_witness :
    (upload none (some ⟨"u1"⟩) (some [⟨"file", some [5]⟩]) "img1" none
        ⟨[], []⟩ [("u1", none)]).response = UploadResult.created ∧
    (upload none (some ⟨"u1"⟩) (some [⟨"file", some [5]⟩]) "img1" none
        ⟨[], []⟩ [("u1", none)]).db.lookup (Session.mk "u1").userId
      = some (some (storedImagePath (Session.mk "u1").userId "img1")) :=
  ⟨(upload_stores_relative_path none ⟨"u1"⟩ [⟨"file", some [5]⟩] ⟨"file", some [5]⟩
      [5] "img1" ⟨[], []⟩ [("u1", none)] (by decide) rfl (by decide) (by decide)
      (by decide) (by decide)).1,
   (upload_stores_relative_path none ⟨"u1"⟩ [⟨"file", some [5]⟩] ⟨"file", some [5]⟩
      [5] "img1" ⟨[], []⟩ [("u1", none)] (by decide) rfl (by decide) (by decide)
      (by decide) (by decide)).2.1⟩

/-- C9: the serve handler mutates no state — running any number of repeated
identical serve requests leaves the filesystem and the user table exactly
as they were and answers every one of them with the same response,
byte-identical content included, as long as no other operation intervenes. -/
theorem serve_pure_idempotent :
    ∀ env ses uid (σ : State) n,
      run env σ (List.replicate n (Request.serveReq ses uid)) =
        (List.replicate n (Response.fromServe (serve env ses uid σ.2 σ.1)), σ) := by
  intro env ses uid σ n
  induction n with
  | zero => rfl
  | succ k ih => simp [List.replicate, run, step, ih]

/-- C10: the list-users endpoint redacts the image column to a presence
boolean — any two user tables that agree on ids, emails, names,
verification flags and on *whether* each image is present, but differ
arbitrarily in the non-null image path strings, produce identical
responses. -/
theorem listUsers_redacts_image :
    ∀ us1 us2 : List UserRow,
      List.Forall₂ (fun a b => a.id = b.id ∧ a.email = b.email ∧ a.name = b.name ∧
        a.emailVerified = b.emailVerified ∧ a.image.isSome = b.image.isSome) us1 us2 →
      listUsers us1 = listUsers us2 := by
  intro us1 us2 h
  induction h with
  | nil => rfl
  | cons hab _ ih =>
      obtain ⟨h1, h2, h3, h4, h5⟩ := hab
      simp only [listUsers, List.map_cons] at ih ⊢
      rw [h1, h2, h3, h4, h5, ih]

/-- C10, witness: two tables differing only in the image path string value
produce the same response. -/
theorem listUsers_redacts_image_witness :
    listUsers [⟨"a", "e", "n", true, some "users/a/images/x"⟩]
      = listUsers [⟨"a", "e", "n", true, some "users/a/images/y"⟩] :=
  listUsers_redacts_image _ _
    (List.Forall₂.cons ⟨rfl, rfl, rfl, rfl, rfl⟩ List.Forall₂.nil)

end NuxtTemplate
